import Mathlib

/-!
Verification of the EMM Attach procedure engine of the MME NAS stack
(src/SRC/NAS/EMM/Attach.c), against its natural-language specification.

The C functions are embedded shallowly: every function of Attach.c that the
claims touch becomes a pure Lean function over an explicit state
(EmmContext / AttachProc), returning the successor state together with the
list of SAP primitives and timer operations it emitted and its return code.
Pointer-optional C fields (guti_t *, imsi_t * ...) become Option values;
structures that the C code compares bytewise with memcmp are abstracted to
Nat, so memcmp equality becomes equality of the abstraction.

Code of the repository that Attach.c calls but that is not part of the
sources at hand (nas_procedures helpers, the EMMREG SAP dispatcher, the
ESM SAP return codes, the NAS timer API) is modelled from the
specification; each such definition carries a doc comment saying so.
-/

namespace OaiAttach

/-- EPS attach type (emm_proc_attach_type_t in emm_proc.h). -/
inductive EmmAttachType
  | eps
  | combined_eps_imsi
  | emergency
  | reserved
deriving DecidableEq

/-- The subset of nas_message_decode_status_t consulted by Attach.c. -/
structure DecodeStatus where
  mac_matched : Bool
deriving DecidableEq

/-- emm_attach_request_ies_t (emm_proc.h).  Pointer fields become Option;
memcmp-compared payloads (guti_t, imsi_t, imei_t, tai_t, ecgi_t,
capability IEs, the ESM PDU) are abstracted to Nat. -/
structure AttachIes where
  is_initial : Bool
  type : EmmAttachType
  is_native_sc : Bool
  ksi : Nat
  is_native_guti : Bool
  guti : Option Nat
  imsi : Option Nat
  imei : Option Nat
  last_visited_registered_tai : Option Nat
  originating_tai : Option Nat
  originating_ecgi : Option Nat
  ue_network_capability : Nat
  ms_network_capability : Option Nat
  drx_parameter : Option Nat
  esm_msg : Option Nat
  decode_status : DecodeStatus
deriving DecidableEq

/-- One presence-then-memcmp comparison block of _emm_attach_ies_have_changed:
changed when exactly one side carries the IE, or both carry it with
different bytes. -/
def optChanged (a b : Option Nat) : Bool :=
  match a, b with
  | some _, none => true
  | none, some _ => true
  | some x, some y => x != y
  | none, none => false

/-- _emm_attach_ies_have_changed (Attach.c lines 1438-1628), block for block
in source order.  Note the block at lines 1495-1502: although its comment
and log message speak about the IMSI values, the condition it tests is a
second memcmp of the two GUTI fields, so two snapshots that both carry an
IMSI are never compared on the IMSI value. -/
def emm_attach_ies_have_changed (ies1 ies2 : AttachIes) : Bool :=
  if ies1.type != ies2.type then true
  else if ies1.is_native_sc != ies2.is_native_sc then true
  else if ies1.ksi != ies2.ksi then true
  else if ies1.is_native_guti != ies2.is_native_guti then true
  else if optChanged ies1.guti ies2.guti then true
  else if ies1.imsi.isSome && ies2.imsi.isNone then true
  else if ies1.imsi.isNone && ies2.imsi.isSome then true
  else if optChanged ies1.guti ies2.guti then true
  else if optChanged ies1.imei ies2.imei then true
  else if optChanged ies1.last_visited_registered_tai ies2.last_visited_registered_tai then true
  else if optChanged ies1.originating_tai ies2.originating_tai then true
  else if optChanged ies1.originating_ecgi ies2.originating_ecgi then true
  else if ies1.ue_network_capability != ies2.ue_network_capability then true
  else if optChanged ies1.ms_network_capability ies2.ms_network_capability then true
  else false

/-- A fixed well-formed IE snapshot used as the base point of the concrete
evaluations below. -/
def iesBase : AttachIes :=
  { is_initial := true
    type := EmmAttachType.eps
    is_native_sc := true
    ksi := 0
    is_native_guti := true
    guti := none
    imsi := some 1
    imei := none
    last_visited_registered_tai := none
    originating_tai := some 10
    originating_ecgi := some 20
    ue_network_capability := 30
    ms_network_capability := none
    drx_parameter := none
    esm_msg := some 40
    decode_status := { mac_matched := true } }

/-- The same snapshot with a different IMSI value. -/
def iesOtherImsi : AttachIes := { iesBase with imsi := some 2 }


/-- EMM cause codes used by Attach.c (emm_cause.h subset named by the spec). -/
inductive EmmCause
  | success
  | illegal_ue
  | imei_not_accepted
  | esm_failure
  | protocol_error
deriving DecidableEq

/-- EMM finite-state-machine states (emm_fsm.h subset named by the spec). -/
inductive EmmFsmState
  | deregistered
  | registered_initiated
  | common_procedure_initiated
  | registered
  | deregistered_initiated
deriving DecidableEq

/-- nas_emm_attach_proc_t: the specific Attach procedure record.  Fields are
the ones Attach.c reads or writes; T3450 is the armed/inactive state of the
timer handle owned by the procedure. -/
structure AttachProc where
  ue_id : Nat
  ies : AttachIes
  guti : Nat
  emm_cause : EmmCause
  attach_accept_sent : Nat
  attach_reject_sent : Bool
  attach_complete_received : Bool
  esm_msg_out : Option Nat
  t3450_armed : Bool
deriving DecidableEq

/-- The projection of the per-UE EMM context (emm_context_t plus the
procedure registry) that Attach.c manipulates.  smc_running /
ident_running / ident_is_cause_is_attach model the is_nas_common_procedure
queries on the procedure registry; guti_present / guti_valid model the
EMM_CTXT_PRESENT_GUTI / IS_EMM_CTXT_VALID_GUTI attribute bits. -/
structure EmmContext where
  ue_id : Nat
  num_attach_request : Nat
  attach_proc : Option AttachProc
  fsm_state : EmmFsmState
  is_attached : Bool
  is_emergency : Bool
  ksi : Nat
  guti_present : Bool
  guti_valid : Bool
  guti : Nat
  smc_running : Bool
  ident_running : Bool
  ident_is_cause_is_attach : Bool
deriving DecidableEq

/-- SAP primitives and timer operations emitted by the engine, recorded in
the order the code issues them.  emmregAttachRejNullProc is the
EMMREG_ATTACH_REJ emission of emm_proc_attach_complete's tail when no
Attach procedure was found: the primitive then carries a null procedure
pointer. -/
inductive Prim
  | emmregAttachRej (ue_id : Nat) (cause : EmmCause)
  | emmregAttachRejNullProc (ue_id : Nat)
  | emmregAttachAbort (ue_id : Nat)
  | emmregAttachCnf (ue_id : Nat)
  | emmregCommonProcAbort (ue_id : Nat)
  | emmasEstablishCnf (ue_id : Nat)
  | emmasEstablishRej (ue_id : Nat) (cause : EmmCause)
  | esmUnitdataInd (ue_id : Nat)
  | esmBearerActivateCnf (ue_id : Nat)
  | esmPdnConnectivityRej (ue_id : Nat)
  | t3450Stop (ue_id : Nat)
  | t3450Start (ue_id : Nat)
  | identificationStart (ue_id : Nat)
  | authenticationStart (ue_id : Nat)
deriving DecidableEq

/-- Modelled from the spec: return status of the ESM SAP, listed there as
SUCCESS | DISCARDED | ERROR (esm_sapDef.h is not among the sources).  The
enumerators take the default C values 0, 1, 2 in listing order, so a
zero-initialized esm_sap_t carries err = success. -/
inductive EsmSapError
  | success
  | discarded
  | failed
deriving DecidableEq

/-- The MME-side environment of one call: the configuration bit consulted by
the emergency gate, and the outcome of the external mme_api / ESM calls
(mme_api_new_guti, esm_sap_send), which are outside the NAS EMM sources. -/
structure MmeConfig where
  emergency_bearer_services_in_s1_supported : Bool
  guti_alloc_ok : Bool
  new_guti : Nat
  esm_unitdata_rc : Bool
  esm_unitdata_err : EsmSapError
  esm_unitdata_response : Option Nat
  esm_cnf_rc : Bool
  esm_cnf_err : EsmSapError
deriving DecidableEq

/-- Result of an engine step: successor context, emitted primitives, and the
return code (ok = true stands for RETURNok). -/
structure StepResult where
  ctx : EmmContext
  prims : List Prim
  ok : Bool
deriving DecidableEq

/-- Modelled from the spec: ATTACH_COUNTER_MAX, the bound on the T3450
retransmission counter; the spec fixes it at 5 (the macro lives in a
header that is not among the sources). -/
def ATTACH_COUNTER_MAX : Nat := 5

/-- Modelled from the spec: nas_procedures helper; the Attach procedure
record carries the attach_accept_sent counter, and an Accept has been sent
once that counter is positive. -/
def is_nas_attach_accept_sent (p : AttachProc) : Bool :=
  decide (0 < p.attach_accept_sent)

/-- Modelled from the spec: nas_procedures helper reading the
attach_reject_sent flag. -/
def is_nas_attach_reject_sent (p : AttachProc) : Bool :=
  p.attach_reject_sent

/-- Modelled from the spec: nas_procedures helper reading the
attach_complete_received flag. -/
def is_nas_attach_complete_received (p : AttachProc) : Bool :=
  p.attach_complete_received

/-- _emm_attach_reject (Attach.c lines 799-851), the fail_out continuation
of an Attach procedure: coerce a SUCCESS cause to ILLEGAL_UE, then send
EMMAS_ESTABLISH_REJ to the UE; when the cause is ESM_FAILURE the reject
must carry the stashed ESM PDU and the function errors out without sending
anything if that PDU is missing. -/
def emm_attach_reject_failout (p : AttachProc) : AttachProc × List Prim × Bool :=
  let p1 := if p.emm_cause = EmmCause.success then { p with emm_cause := EmmCause.illegal_ue } else p
  if p1.emm_cause ≠ EmmCause.esm_failure then
    (p1, [Prim.emmasEstablishRej p1.ue_id p1.emm_cause], true)
  else
    match p1.esm_msg_out with
    | some _ => (p1, [Prim.emmasEstablishRej p1.ue_id p1.emm_cause], true)
    | none => (p1, [], false)

/-- Modelled from the spec: processing of the EMMREG_ATTACH_REJ primitive by
the EMMREG SAP dispatcher (emm_sap.c is not among the sources): the
procedure's fail_out continuation (_emm_attach_reject, embedded above) is
invoked to send the Attach Reject to the UE, the context transitions to
DEREGISTERED, and the procedure record is removed when free_proc is set. -/
def emmreg_attach_rej_dispatch (ctx : EmmContext) (p : AttachProc) (free_proc : Bool) :
    EmmContext × List Prim × Bool :=
  let r := emm_attach_reject_failout p
  let ctx1 := { ctx with
    fsm_state := EmmFsmState.deregistered
    attach_proc := if free_proc then none else ctx.attach_proc }
  (ctx1, Prim.emmregAttachRej p.ue_id p.emm_cause :: r.2.1, r.2.2)

/-- Modelled from the spec: processing of the EMMREG_ATTACH_ABORT primitive
by the EMMREG SAP dispatcher: T3450 is stopped, ESM_PDN_CONNECTIVITY_REJ
is sent downward (the procedure's abort continuation _emm_attach_abort,
Attach.c lines 867-907), the peer layer is notified with EMMREG_ATTACH_REJ
when notify is set, the context transitions to DEREGISTERED and the
procedure record is removed when free_proc is set. -/
def emmreg_attach_abort_dispatch (ctx : EmmContext) (p : AttachProc) (notify free_proc : Bool) :
    EmmContext × List Prim :=
  let base := [Prim.emmregAttachAbort p.ue_id, Prim.esmPdnConnectivityRej p.ue_id]
  let notifyPrims :=
    if notify then
      Prim.emmregAttachRej p.ue_id p.emm_cause :: (emm_attach_reject_failout p).2.1
    else []
  let ctx1 := { ctx with
    fsm_state := EmmFsmState.deregistered
    attach_proc := if free_proc then none else ctx.attach_proc }
  (ctx1, base ++ notifyPrims)

/-- _emm_attach_update (Attach.c lines 1688-1761) restricted to the context
attributes the embedding tracks: the emergency indicator and the key set
identifier.  (Capability, TAI and identity attributes updated there are
not consulted by any embedded function.) -/
def emm_attach_update (ctx : EmmContext) (ies : AttachIes) : EmmContext :=
  { ctx with
    is_emergency := ies.type == EmmAttachType.emergency
    ksi := ies.ksi }

/-- _emm_send_attach_accept (Attach.c lines 1299-1425).  With an Attach
procedure running: update the context from the procedure's IE snapshot;
when no GUTI is present in the context ask mme_api_new_guti for one and,
on allocation failure, return RETURNerror at once without emitting
anything (line 1357); otherwise install the fresh GUTI as present but not
valid.  Then notify EMMAS_ESTABLISH_CNF (the Attach Accept) and, the send
having succeeded, stop then start T3450.  The attach_accept_sent counter
is not touched anywhere in this function. -/
def emm_send_attach_accept (cfg : MmeConfig) (ctx : EmmContext) : StepResult :=
  match ctx.attach_proc with
  | none => { ctx := ctx, prims := [], ok := false }
  | some p =>
    let ctx1 := emm_attach_update ctx p.ies
    if ctx1.guti_present then
      { ctx := { ctx1 with attach_proc := some { p with t3450_armed := true } }
        prims := [Prim.emmasEstablishCnf p.ue_id, Prim.t3450Stop p.ue_id, Prim.t3450Start p.ue_id]
        ok := true }
    else if cfg.guti_alloc_ok then
      let ctx2 := { ctx1 with guti_present := true, guti_valid := false, guti := cfg.new_guti }
      { ctx := { ctx2 with attach_proc := some { p with t3450_armed := true } }
        prims := [Prim.emmasEstablishCnf p.ue_id, Prim.t3450Stop p.ue_id, Prim.t3450Start p.ue_id]
        ok := true }
    else
      { ctx := ctx1, prims := [], ok := false }

/-- _emm_attach_t3450_handler (Attach.c lines 713-752).  With no Attach
procedure running the handler does nothing at all.  Otherwise it marks the
timer inactive, increments attach_accept_sent, and either resends the
Attach Accept (incremented counter still below ATTACH_COUNTER_MAX) or
aborts the procedure with EMMREG_ATTACH_ABORT (notify, free_proc). -/
def emm_attach_t3450_handler (cfg : MmeConfig) (ctx : EmmContext) : EmmContext × List Prim :=
  match ctx.attach_proc with
  | none => (ctx, [])
  | some p =>
    let p1 := { p with t3450_armed := false, attach_accept_sent := p.attach_accept_sent + 1 }
    let ctx1 := { ctx with attach_proc := some p1 }
    if p1.attach_accept_sent < ATTACH_COUNTER_MAX then
      let r := emm_send_attach_accept cfg ctx1
      (r.ctx, r.prims)
    else
      emmreg_attach_abort_dispatch ctx1 p1 true true

/-- Iterated T3450 expiries: state and cumulated trace after n fires. -/
def t3450_fire_n (cfg : MmeConfig) (ctx : EmmContext) : Nat → EmmContext × List Prim
  | 0 => (ctx, [])
  | n + 1 =>
    let r := t3450_fire_n cfg ctx n
    let s := emm_attach_t3450_handler cfg r.1
    (s.1, r.2 ++ s.2)

/-- _emm_attach (Attach.c lines 1214-1278): ESM hand-off and Accept
emission.  When the request carried an ESM PDU it is forwarded as
non-standalone ESM_UNITDATA_IND; an ESM failure that is not DISCARDED sets
emm_cause to ESM_FAILURE, stashes the ESM response PDU and rejects.
Without an ESM PDU the Attach Accept is sent directly.  A failing send is
turned into a reject with cause PROTOCOL_ERROR. -/
def emm_attach (cfg : MmeConfig) (ctx : EmmContext) : StepResult :=
  match ctx.attach_proc with
  | none => { ctx := ctx, prims := [], ok := false }
  | some p =>
    let r : StepResult :=
      match p.ies.esm_msg with
      | some _ =>
        let prims := [Prim.esmUnitdataInd p.ue_id]
        if cfg.esm_unitdata_rc && (cfg.esm_unitdata_err == EsmSapError.success) then
          { ctx := ctx, prims := prims, ok := true }
        else if cfg.esm_unitdata_err != EsmSapError.discarded then
          let p2 := { p with
            emm_cause := EmmCause.esm_failure
            ies := { p.ies with esm_msg := none }
            esm_msg_out := cfg.esm_unitdata_response }
          let rej := emm_attach_reject_failout p2
          { ctx := { ctx with attach_proc := some rej.1 }
            prims := prims ++ rej.2.1
            ok := rej.2.2 }
        else
          { ctx := ctx, prims := prims, ok := true }
      | none => emm_send_attach_accept cfg ctx
    if r.ok then r
    else
      match r.ctx.attach_proc with
      | some q =>
        let q2 := { q with emm_cause := EmmCause.protocol_error }
        let rej := emm_attach_reject_failout q2
        { ctx := { r.ctx with attach_proc := some rej.1 }
          prims := r.prims ++ rej.2.1
          ok := rej.2.2 }
      | none => { ctx := r.ctx, prims := r.prims, ok := false }

/-- _emm_proc_create_procedure_attach_request (Attach.c lines 674-684)
together with nas_new_attach_procedure, the latter modelled from the spec
(nas_procedures.c is not among the sources): a fresh procedure record
owning the IE snapshot, with zeroed counters and cleared flags; the abort
and time_out continuations installed by the source are the functions
embedded here. -/
def create_procedure_attach_request (ctx : EmmContext) (ies : AttachIes) : EmmContext :=
  { ctx with attach_proc := some {
      ue_id := ctx.ue_id
      ies := ies
      guti := 0
      emm_cause := EmmCause.success
      attach_accept_sent := 0
      attach_reject_sent := false
      attach_complete_received := false
      esm_msg_out := none
      t3450_armed := false } }

/-- _emm_attach_run_procedure (Attach.c lines 915-939).  The common
procedures it launches (emm_proc_authentication, emm_proc_identification)
are outside the Attach sources and are modelled from the spec as the
emission of their first NAS request; Identification invoked by an Attach
runs with is_cause_is_attach set.  The IMEI-only branch is AssertFatal
"TODO emergency" in the source and is modelled as an error result. -/
def emm_attach_run_procedure (ctx : EmmContext) : StepResult :=
  match ctx.attach_proc with
  | none => { ctx := ctx, prims := [], ok := false }
  | some p =>
    if p.ies.imsi.isSome then
      if p.ies.decode_status.mac_matched then
        { ctx := ctx, prims := [Prim.authenticationStart p.ue_id], ok := true }
      else
        { ctx := { ctx with ident_running := true, ident_is_cause_is_attach := true }
          prims := [Prim.identificationStart p.ue_id]
          ok := true }
    else if p.ies.guti.isSome then
      { ctx := { ctx with ident_running := true, ident_is_cause_is_attach := true }
        prims := [Prim.identificationStart p.ue_id]
        ok := true }
    else
      { ctx := ctx, prims := [], ok := false }

/-- Tail of emm_proc_attach_request (Attach.c lines 452-505): abnormal case
f (context in EMM_REGISTERED: create a new Attach procedure), the common
num_attach_request increment of line 463, creation of a procedure when
none is running (line 473), then _emm_attach_run_procedure. -/
def attach_request_tail (ctx : EmmContext) (prims : List Prim) (ies : AttachIes) : StepResult :=
  let ctx1 := if ctx.fsm_state = EmmFsmState.registered
    then create_procedure_attach_request ctx ies else ctx
  let ctx2 := { ctx1 with num_attach_request := ctx1.num_attach_request + 1 }
  let ctx3 := if ctx2.attach_proc.isNone then create_procedure_attach_request ctx2 ies else ctx2
  let r := emm_attach_run_procedure ctx3
  { ctx := r.ctx, prims := prims ++ r.prims, ok := r.ok }

/-- Abnormal cases d and e of emm_proc_attach_request (Attach.c lines
366-450), evaluated on the Attach procedure captured when the block is
entered.  Case d (Accept sent, Complete not received) first increments
num_attach_request (line 370); with changed IEs the old procedure is
aborted (notify) and a new one created, with unchanged IEs T3450 is
stopped, the Accept resent and T3450 restarted when no Complete is
expected to have arrived.  Case e (Accept not sent, at least one prior
request) aborts without notification on changed IEs and otherwise returns
at once, ignoring the request. -/
def attach_request_collision (cfg : MmeConfig) (ctx : EmmContext) (prims : List Prim)
    (ies : AttachIes) : StepResult :=
  match ctx.attach_proc with
  | none => attach_request_tail ctx prims ies
  | some p =>
    if is_nas_attach_accept_sent p && !(is_nas_attach_complete_received p) then
      let ctxD := { ctx with num_attach_request := ctx.num_attach_request + 1 }
      if emm_attach_ies_have_changed ies p.ies then
        let ab := emmreg_attach_abort_dispatch ctxD p true true
        attach_request_tail (create_procedure_attach_request ab.1 ies) (prims ++ ab.2) ies
      else
        let ctxS := { ctxD with attach_proc := some { p with t3450_armed := false } }
        let r := emm_send_attach_accept cfg ctxS
        let rs : EmmContext × List Prim :=
          match r.ctx.attach_proc with
          | some q =>
            if !q.attach_complete_received then
              ({ r.ctx with attach_proc := some { q with t3450_armed := true } },
               [Prim.t3450Start q.ue_id])
            else (r.ctx, [])
          | none => (r.ctx, [])
        attach_request_tail rs.1 (prims ++ [Prim.t3450Stop p.ue_id] ++ r.prims ++ rs.2) ies
    else if !(is_nas_attach_accept_sent p) && decide (1 ≤ ctx.num_attach_request) then
      if emm_attach_ies_have_changed ies p.ies then
        let ab := emmreg_attach_abort_dispatch ctx p false true
        attach_request_tail (create_procedure_attach_request ab.1 ies) (prims ++ ab.2) ies
      else
        { ctx := ctx, prims := prims, ok := true }
    else
      attach_request_tail ctx prims ies

/-- Identification-collision block of emm_proc_attach_request (Attach.c
lines 331-364): with an Identification common procedure running and no
Attach, a new Attach procedure is created; with an in-progress Attach
(neither Accept nor Reject sent) whose Identification was caused by the
Attach, changed IEs abort the old procedure and create a new one, and
unchanged IEs make the function return at once, dropping the request. -/
def attach_request_ident (cfg : MmeConfig) (ctx : EmmContext) (prims : List Prim)
    (ies : AttachIes) : StepResult :=
  if ctx.ident_running then
    match ctx.attach_proc with
    | none => attach_request_collision cfg (create_procedure_attach_request ctx ies) prims ies
    | some p =>
      if is_nas_attach_accept_sent p || is_nas_attach_reject_sent p then
        attach_request_collision cfg ctx prims ies
      else if ctx.ident_is_cause_is_attach then
        if !(decide (0 < p.attach_accept_sent)) && !p.attach_reject_sent then
          if emm_attach_ies_have_changed ies p.ies then
            let ab := emmreg_attach_abort_dispatch ctx p true true
            attach_request_collision cfg (create_procedure_attach_request ab.1 ies)
              (prims ++ ab.2) ies
          else
            { ctx := ctx, prims := prims, ok := true }
        else
          attach_request_collision cfg ctx prims ies
      else
        attach_request_collision cfg ctx prims ies
  else
    attach_request_collision cfg ctx prims ies

/-- emm_proc_attach_request (Attach.c lines 194-505) for a located EMM
context (context lookup and the duplicate-eNB reconciliation act on the
context store, outside the embedded state).  The emergency gate (lines
282-310) rejects with cause IMEI_NOT_ACCEPTED through a dummy procedure
and returns at once.  A running SMC common procedure is aborted with
EMMREG_COMMON_PROC_ABORT (lines 317-329; the GUTI-reallocation check at
lines 312-315 performs no action in the source).  Then the
identification-collision block, the case d / e block, and the common
tail. -/
def emm_proc_attach_request (cfg : MmeConfig) (ctx0 : EmmContext) (ies : AttachIes) : StepResult :=
  if !cfg.emergency_bearer_services_in_s1_supported && (ies.type == EmmAttachType.emergency) then
    let dummy : AttachProc := {
      ue_id := ctx0.ue_id
      ies := ies
      guti := 0
      emm_cause := EmmCause.imei_not_accepted
      attach_accept_sent := 0
      attach_reject_sent := false
      attach_complete_received := false
      esm_msg_out := none
      t3450_armed := false }
    let d := emmreg_attach_rej_dispatch ctx0 dummy false
    { ctx := d.1, prims := d.2.1, ok := d.2.2 }
  else
    let smc : EmmContext × List Prim :=
      if ctx0.smc_running then
        ({ ctx0 with smc_running := false }, [Prim.emmregCommonProcAbort ctx0.ue_id])
      else (ctx0, [])
    attach_request_ident cfg smc.1 smc.2 ies

/-- emm_proc_attach_reject (Attach.c lines 526-549): with a context for the
ue_id and a running Attach procedure, the procedure's emm_cause is set to
the given cause and EMMREG_ATTACH_REJ is sent (free_proc); in every other
case the function returns RETURNerror having touched nothing. -/
def emm_proc_attach_reject (ctxOpt : Option EmmContext) (cause : EmmCause) :
    Option EmmContext × List Prim × Bool :=
  match ctxOpt with
  | none => (none, [], false)
  | some ctx =>
    match ctx.attach_proc with
    | none => (some ctx, [], false)
    | some p =>
      let p2 := { p with emm_cause := cause }
      let ctx2 := { ctx with attach_proc := some p2 }
      let d := emmreg_attach_rej_dispatch ctx2 p2 true
      (some d.1, d.2.1, d.2.2)

/-- emm_proc_attach_complete (Attach.c lines 573-666).  With a context and
a running Attach procedure: the assigned GUTI becomes valid, the procedure
is deleted, and the contained ESM PDU is forwarded as
ESM_DEFAULT_EPS_BEARER_CONTEXT_ACTIVATE_CNF, after which the three-way
branch on (rc, esm_sap.err) emits EMMREG_ATTACH_CNF (setting is_attached),
EMMREG_ATTACH_REJ, or nothing.  Without a context or without a running
procedure the local rc stays RETURNerror and esm_sap stays
zero-initialized (err = success), so the same tail emits EMMREG_ATTACH_REJ
carrying a null procedure pointer. -/
def emm_proc_attach_complete (cfg : MmeConfig) (ctxOpt : Option EmmContext) (ue_id : Nat) :
    Option EmmContext × List Prim × Bool :=
  match ctxOpt with
  | none => (none, [Prim.emmregAttachRejNullProc ue_id], true)
  | some ctx =>
    match ctx.attach_proc with
    | none => (some ctx, [Prim.emmregAttachRejNullProc ue_id], true)
    | some p =>
      let ctx1 := { ctx with
        guti_present := true
        guti_valid := true
        guti := p.guti
        attach_proc := none }
      let prims1 := [Prim.esmBearerActivateCnf ue_id]
      if cfg.esm_cnf_rc && (cfg.esm_cnf_err == EsmSapError.success) then
        let ctx2 := { ctx1 with is_attached := true }
        (some ctx2, prims1 ++ [Prim.emmregAttachCnf ue_id], true)
      else if cfg.esm_cnf_err != EsmSapError.discarded then
        let d := emmreg_attach_rej_dispatch ctx1 p true
        (some d.1, prims1 ++ d.2.1, d.2.2)
      else
        (some ctx1, prims1, true)

/-
Concrete fixtures for the closed evaluations and the witnesses.
-/

/-- A benign environment: emergency bearers supported, GUTI allocation and
ESM calls succeed. -/
def cfgBase : MmeConfig :=
  { emergency_bearer_services_in_s1_supported := true
    guti_alloc_ok := true
    new_guti := 101
    esm_unitdata_rc := true
    esm_unitdata_err := EsmSapError.success
    esm_unitdata_response := none
    esm_cnf_rc := true
    esm_cnf_err := EsmSapError.success }

/-- An Attach procedure that has sent one Attach Accept and waits for the
Attach Complete (T3450 armed). -/
def procBase : AttachProc :=
  { ue_id := 7
    ies := iesBase
    guti := 0
    emm_cause := EmmCause.success
    attach_accept_sent := 1
    attach_reject_sent := false
    attach_complete_received := false
    esm_msg_out := some 40
    t3450_armed := true }

/-- The matching context: one Attach Request counted, procBase running,
GUTI already installed by the first Accept. -/
def ctxBase : EmmContext :=
  { ue_id := 7
    num_attach_request := 1
    attach_proc := some procBase
    fsm_state := EmmFsmState.registered_initiated
    is_attached := false
    is_emergency := false
    ksi := 0
    guti_present := true
    guti_valid := false
    guti := 101
    smc_running := false
    ident_running := false
    ident_is_cause_is_attach := false }

/-- ctxBase with no running procedure. -/
def ctxNoProc : EmmContext := { ctxBase with attach_proc := none }

/-
Helper lemmas shared by the claim theorems.
-/

theorem emm_attach_run_procedure_proc (ctx : EmmContext) :
    (emm_attach_run_procedure ctx).ctx.attach_proc = ctx.attach_proc := by
  rcases h : ctx.attach_proc with _ | p
  · simp [emm_attach_run_procedure, h]
  · simp only [emm_attach_run_procedure, h]
    split_ifs <;> simp [h]

theorem emm_attach_run_procedure_num (ctx : EmmContext) :
    (emm_attach_run_procedure ctx).ctx.num_attach_request = ctx.num_attach_request := by
  rcases h : ctx.attach_proc with _ | p
  · simp [emm_attach_run_procedure, h]
  · simp only [emm_attach_run_procedure, h]
    split_ifs <;> simp

theorem emm_send_attach_accept_num (cfg : MmeConfig) (ctx : EmmContext) :
    (emm_send_attach_accept cfg ctx).ctx.num_attach_request = ctx.num_attach_request := by
  rcases h : ctx.attach_proc with _ | p
  · simp [emm_send_attach_accept, h]
  · simp only [emm_send_attach_accept, h, emm_attach_update]
    split_ifs <;> simp

theorem emm_send_attach_accept_fsm (cfg : MmeConfig) (ctx : EmmContext) :
    (emm_send_attach_accept cfg ctx).ctx.fsm_state = ctx.fsm_state := by
  rcases h : ctx.attach_proc with _ | p
  · simp [emm_send_attach_accept, h]
  · simp only [emm_send_attach_accept, h, emm_attach_update]
    split_ifs <;> simp

theorem emm_send_attach_accept_counter (cfg : MmeConfig) (ctx : EmmContext) :
    (emm_send_attach_accept cfg ctx).ctx.attach_proc.map AttachProc.attach_accept_sent =
      ctx.attach_proc.map AttachProc.attach_accept_sent := by
  rcases h : ctx.attach_proc with _ | p
  · simp [emm_send_attach_accept, h]
  · simp only [emm_send_attach_accept, h, emm_attach_update]
    split_ifs <;> simp [h]

theorem attach_request_tail_num (ctx : EmmContext) (prims : List Prim) (ies : AttachIes) :
    (attach_request_tail ctx prims ies).ctx.num_attach_request = ctx.num_attach_request + 1 := by
  simp only [attach_request_tail, emm_attach_run_procedure_num]
  split_ifs <;> simp [create_procedure_attach_request]

/-
Claim theorems.
-/

/-- Claim C5: the claim states that two IE snapshots both carrying an IMSI
but with different IMSI values are detected as changed.  The source
(Attach.c lines 1495-1502) compares the GUTI fields a second time where
its own comment and log message announce the IMSI-value comparison, so two
snapshots that differ only in the IMSI value are reported unchanged: the
claim captures the intended behaviour and the code is a copy-paste slip. -/
theorem C5_imsi_value_not_compared :
    iesBase.imsi = some 1 ∧ iesOtherImsi.imsi = some 2 ∧
    ({ iesBase with imsi := iesOtherImsi.imsi } = iesOtherImsi) ∧
    emm_attach_ies_have_changed iesBase iesOtherImsi = false := by
  refine ⟨rfl, rfl, rfl, by decide⟩

/-- Claim C6: the claim states that an Attach Complete with no context or no
running Attach procedure is discarded silently.  In the source the local
rc stays RETURNerror and the zero-initialized esm_sap carries err =
SUCCESS, so the common tail (Attach.c lines 646-656) still sends
EMMREG_ATTACH_REJ carrying a null procedure pointer: the discard is logged
but not silent, contradicting the code's own "discarded" log lines. -/
theorem C6_complete_discard_not_silent :
    emm_proc_attach_complete cfgBase none 5 = (none, [Prim.emmregAttachRejNullProc 5], true) ∧
    emm_proc_attach_complete cfgBase (some ctxNoProc) 5 =
      (some ctxNoProc, [Prim.emmregAttachRejNullProc 5], true) :=
  ⟨rfl, rfl⟩

/-- Claim C9: when the T3450 handler fires with no specific Attach procedure
running on the context, it emits nothing, increments nothing and leaves
the context unchanged (Attach.c line 718 guards the whole body). -/
theorem C9_t3450_handler_no_proc (cfg : MmeConfig) (ctx : EmmContext)
    (h : ctx.attach_proc = none) :
    emm_attach_t3450_handler cfg ctx = (ctx, []) := by
  unfold emm_attach_t3450_handler
  rw [h]

/-- Witness for C9 at a concrete context with no procedure. -/
theorem C9_t3450_handler_no_proc_witness :
    emm_attach_t3450_handler cfgBase ctxNoProc = (ctxNoProc, []) :=
  C9_t3450_handler_no_proc cfgBase ctxNoProc rfl

/-- The context right after the initial Attach Accept: procedure running
with attach_accept_sent = 0 (the send path does not touch the counter),
the UE never replying. -/
def ctxT0 : EmmContext :=
  { ctxBase with attach_proc := some { procBase with attach_accept_sent := 0 } }

/-- Claim C2: on a T3450 expiry with an Attach running, the handler first
increments attach_accept_sent; while the incremented counter is below
ATTACH_COUNTER_MAX the Accept is resent, and once it reaches the bound the
procedure is aborted with EMMREG_ATTACH_ABORT and deleted.  Consequently,
starting from the initial Accept (counter 0) with a silent UE, T3450 fires
five times, the first four fires each resending the Accept and the fifth
aborting. -/
theorem C2_t3450_expiry_policy :
    (∀ (cfg : MmeConfig) (ctx : EmmContext) (p : AttachProc),
      ctx.attach_proc = some p → ctx.guti_present = true →
      (p.attach_accept_sent + 1 < ATTACH_COUNTER_MAX →
        Prim.emmasEstablishCnf p.ue_id ∈ (emm_attach_t3450_handler cfg ctx).2 ∧
        (emm_attach_t3450_handler cfg ctx).1.attach_proc.map AttachProc.attach_accept_sent =
          some (p.attach_accept_sent + 1)) ∧
      (ATTACH_COUNTER_MAX ≤ p.attach_accept_sent + 1 →
        Prim.emmregAttachAbort p.ue_id ∈ (emm_attach_t3450_handler cfg ctx).2 ∧
        (emm_attach_t3450_handler cfg ctx).1.attach_proc = none)) ∧
    ((t3450_fire_n cfgBase ctxT0 4).2.count (Prim.emmasEstablishCnf 7) = 4 ∧
      (t3450_fire_n cfgBase ctxT0 4).1.attach_proc.map AttachProc.attach_accept_sent = some 4 ∧
      (t3450_fire_n cfgBase ctxT0 5).2.count (Prim.emmasEstablishCnf 7) = 4 ∧
      Prim.emmregAttachAbort 7 ∈ (t3450_fire_n cfgBase ctxT0 5).2 ∧
      (t3450_fire_n cfgBase ctxT0 5).1.attach_proc = none) := by
  constructor
  · intro cfg ctx p h hg
    constructor
    · intro hlt
      simp [emm_attach_t3450_handler, emm_send_attach_accept, emm_attach_update, h, hg, hlt]
    · intro hge
      have hnl : ¬ (p.attach_accept_sent + 1 < ATTACH_COUNTER_MAX) := Nat.not_lt.mpr hge
      simp [emm_attach_t3450_handler, emmreg_attach_abort_dispatch, h, hnl]
  · decide

/-- Witness for the universally quantified part of C2: first expiry at a
concrete context resends the Accept and moves the counter to 1. -/
theorem C2_t3450_expiry_policy_witness :
    Prim.emmasEstablishCnf 7 ∈ (emm_attach_t3450_handler cfgBase ctxT0).2 ∧
    (emm_attach_t3450_handler cfgBase ctxT0).1.attach_proc.map AttachProc.attach_accept_sent =
      some 1 :=
  (C2_t3450_expiry_policy.1 cfgBase ctxT0 _ rfl rfl).1 (by decide)

/-- ctxBase with three Accepts already counted. -/
def ctxA3 : EmmContext :=
  { ctxBase with attach_proc := some { procBase with attach_accept_sent := 3 } }

/-- Claim C3, counterexample: _emm_send_attach_accept emits the Attach
Accept (EMMAS_ESTABLISH_CNF) yet leaves attach_accept_sent at its old
value 3, so an emission does not increment the counter as claimed. -/
theorem C3_counterexample :
    (emm_send_attach_accept cfgBase ctxA3).prims.contains (Prim.emmasEstablishCnf 7) = true ∧
    ctxA3.attach_proc.map AttachProc.attach_accept_sent = some 3 ∧
    (emm_send_attach_accept cfgBase ctxA3).ctx.attach_proc.map AttachProc.attach_accept_sent =
      some 3 := by
  decide

/-- Claim C3, amended: _emm_send_attach_accept never modifies
attach_accept_sent; the counter is advanced exactly once per T3450 expiry
with an Attach running, by the expiry handler before it decides between
resend and abort. -/
theorem C3_amended_counter_only_in_handler :
    (∀ (cfg : MmeConfig) (ctx : EmmContext),
      (emm_send_attach_accept cfg ctx).ctx.attach_proc.map AttachProc.attach_accept_sent =
        ctx.attach_proc.map AttachProc.attach_accept_sent) ∧
    (∀ (cfg : MmeConfig) (ctx : EmmContext) (p : AttachProc),
      ctx.attach_proc = some p → p.attach_accept_sent + 1 < ATTACH_COUNTER_MAX →
      (emm_attach_t3450_handler cfg ctx).1.attach_proc.map AttachProc.attach_accept_sent =
        some (p.attach_accept_sent + 1)) := by
  constructor
  · intro cfg ctx
    exact emm_send_attach_accept_counter cfg ctx
  · intro cfg ctx p h hlt
    simp only [emm_attach_t3450_handler, h]
    simp only [hlt, if_true, reduceIte]
    rw [emm_send_attach_accept_counter]
    simp

/-- Witness for C3's amended statement at concrete contexts. -/
theorem C3_amended_counter_only_in_handler_witness :
    (emm_send_attach_accept cfgBase ctxA3).ctx.attach_proc.map AttachProc.attach_accept_sent =
      some 3 ∧
    (emm_attach_t3450_handler cfgBase ctxT0).1.attach_proc.map AttachProc.attach_accept_sent =
      some 1 :=
  ⟨(C3_amended_counter_only_in_handler.1 cfgBase ctxA3).trans (by decide),
   C3_amended_counter_only_in_handler.2 cfgBase ctxT0 _ rfl (by decide)⟩

/-- IE snapshot without an inner ESM PDU. -/
def iesNoEsm : AttachIes := { iesBase with esm_msg := none }

/-- A context whose Accept composition must allocate a GUTI. -/
def ctxG : EmmContext :=
  { ctxBase with
    guti_present := false
    attach_proc := some { procBase with ies := iesNoEsm } }

/-- Environment in which mme_api_new_guti fails. -/
def cfgG : MmeConfig := { cfgBase with guti_alloc_ok := false }

/-- Claim C8, counterexample: when mme_api_new_guti fails,
_emm_send_attach_accept returns RETURNerror without emitting anything at
all (Attach.c line 1357), and the context with its procedure survives:
no Attach Reject is sent and nothing is destroyed. -/
theorem C8_counterexample :
    (emm_send_attach_accept cfgG ctxG).prims = [] ∧
    (emm_send_attach_accept cfgG ctxG).ok = false ∧
    (emm_send_attach_accept cfgG ctxG).ctx.attach_proc.isSome = true := by
  decide

/-- Claim C8, amended: on GUTI-allocation failure _emm_send_attach_accept
returns an error with no emission and no destruction; only the _emm_attach
caller then turns the error into an Attach Reject, with cause
PROTOCOL_ERROR, still destroying nothing. -/
theorem C8_amended_guti_alloc_failure :
    ∀ (cfg : MmeConfig) (ctx : EmmContext) (p : AttachProc),
      ctx.attach_proc = some p → ctx.guti_present = false → cfg.guti_alloc_ok = false →
      ((emm_send_attach_accept cfg ctx).prims = [] ∧
        (emm_send_attach_accept cfg ctx).ok = false ∧
        (emm_send_attach_accept cfg ctx).ctx.attach_proc = some p) ∧
      (p.ies.esm_msg = none →
        (emm_attach cfg ctx).prims = [Prim.emmasEstablishRej p.ue_id EmmCause.protocol_error] ∧
        (emm_attach cfg ctx).ctx.attach_proc =
          some { p with emm_cause := EmmCause.protocol_error }) := by
  intro cfg ctx p h hg hal
  constructor
  · simp [emm_send_attach_accept, emm_attach_update, h, hg, hal]
  · intro he
    simp [emm_attach, emm_send_attach_accept, emm_attach_update, emm_attach_reject_failout,
      h, hg, hal, he]

/-- Witness for C8's amended statement at the concrete failing context. -/
theorem C8_amended_guti_alloc_failure_witness :
    (emm_send_attach_accept cfgG ctxG).prims = [] ∧
    (emm_attach cfgG ctxG).prims = [Prim.emmasEstablishRej 7 EmmCause.protocol_error] :=
  ⟨(C8_amended_guti_alloc_failure cfgG ctxG _ rfl rfl rfl).1.1,
   ((C8_amended_guti_alloc_failure cfgG ctxG _ rfl rfl rfl).2 rfl).1⟩

/-- Claim C7: with emergency bearer services disabled in the configuration,
an EMERGENCY Attach Request is answered at once by EMMREG_ATTACH_REJ with
cause IMEI_NOT_ACCEPTED (materialised toward the UE as the Attach Reject),
and the function returns without creating a procedure or touching
num_attach_request. -/
theorem C7_emergency_gate :
    ∀ (cfg : MmeConfig) (ctx : EmmContext) (ies : AttachIes),
      cfg.emergency_bearer_services_in_s1_supported = false →
      ies.type = EmmAttachType.emergency →
      (emm_proc_attach_request cfg ctx ies).prims =
        [Prim.emmregAttachRej ctx.ue_id EmmCause.imei_not_accepted,
         Prim.emmasEstablishRej ctx.ue_id EmmCause.imei_not_accepted] ∧
      (emm_proc_attach_request cfg ctx ies).ctx.num_attach_request = ctx.num_attach_request ∧
      (emm_proc_attach_request cfg ctx ies).ctx.attach_proc = ctx.attach_proc := by
  intro cfg ctx ies hc ht
  simp [emm_proc_attach_request, emmreg_attach_rej_dispatch, emm_attach_reject_failout, hc, ht]

/-- Configuration with emergency bearers disabled. -/
def cfgEm : MmeConfig := { cfgBase with emergency_bearer_services_in_s1_supported := false }

/-- An EMERGENCY Attach Request. -/
def iesEm : AttachIes := { iesBase with type := EmmAttachType.emergency }

/-- Witness for C7 at a concrete emergency request. -/
theorem C7_emergency_gate_witness :
    (emm_proc_attach_request cfgEm ctxBase iesEm).prims =
      [Prim.emmregAttachRej 7 EmmCause.imei_not_accepted,
       Prim.emmasEstablishRej 7 EmmCause.imei_not_accepted] ∧
    (emm_proc_attach_request cfgEm ctxBase iesEm).ctx.num_attach_request = 1 :=
  ⟨(C7_emergency_gate cfgEm ctxBase iesEm rfl rfl).1,
   (C7_emergency_gate cfgEm ctxBase iesEm rfl rfl).2.1⟩

/-- Claim C10: emm_proc_attach_reject emits EMMREG_ATTACH_REJ carrying the
given cause on the running Attach procedure exactly when a context exists
and an Attach procedure runs on it; with no context or no procedure it
returns RETURNerror and leaves everything unchanged. -/
theorem C10_attach_reject_gating :
    (∀ cause, emm_proc_attach_reject none cause = (none, [], false)) ∧
    (∀ (ctx : EmmContext) (cause : EmmCause), ctx.attach_proc = none →
      emm_proc_attach_reject (some ctx) cause = (some ctx, [], false)) ∧
    (∀ (ctx : EmmContext) (p : AttachProc) (cause : EmmCause), ctx.attach_proc = some p →
      Prim.emmregAttachRej p.ue_id cause ∈ (emm_proc_attach_reject (some ctx) cause).2.1 ∧
      (emm_proc_attach_reject (some ctx) cause).1 =
        some { ctx with fsm_state := EmmFsmState.deregistered, attach_proc := none }) := by
  refine ⟨fun cause => rfl, ?_, ?_⟩
  · intro ctx cause h
    simp [emm_proc_attach_reject, h]
  · intro ctx p cause h
    simp [emm_proc_attach_reject, emmreg_attach_rej_dispatch, h]

/-- Witness for C10 at concrete contexts with and without a procedure. -/
theorem C10_attach_reject_gating_witness :
    emm_proc_attach_reject none EmmCause.illegal_ue = (none, [], false) ∧
    emm_proc_attach_reject (some ctxNoProc) EmmCause.illegal_ue = (some ctxNoProc, [], false) ∧
    Prim.emmregAttachRej 7 EmmCause.illegal_ue ∈
      (emm_proc_attach_reject (some ctxBase) EmmCause.illegal_ue).2.1 :=
  ⟨C10_attach_reject_gating.1 EmmCause.illegal_ue,
   C10_attach_reject_gating.2.1 ctxNoProc EmmCause.illegal_ue rfl,
   (C10_attach_reject_gating.2.2 ctxBase procBase EmmCause.illegal_ue rfl).1⟩

/-- Claim C1: an Attach Request colliding with an Attach procedure that has
sent its Accept and not yet received the Complete (abnormal case d):
changed IEs abort the old procedure via EMMREG_ATTACH_ABORT and create a
fresh procedure owning the new snapshot; unchanged IEs stop T3450, resend
the Attach Accept (EMMAS_ESTABLISH_CNF), rearm T3450 and leave
attach_accept_sent untouched. -/
theorem C1_case_d_collision :
    ∀ (cfg : MmeConfig) (ctx : EmmContext) (p : AttachProc) (ies : AttachIes),
      ctx.attach_proc = some p →
      is_nas_attach_accept_sent p = true →
      p.attach_complete_received = false →
      ctx.smc_running = false →
      ctx.ident_running = false →
      ctx.fsm_state = EmmFsmState.registered_initiated →
      ctx.guti_present = true →
      cfg.emergency_bearer_services_in_s1_supported = true →
      (emm_attach_ies_have_changed ies p.ies = true →
        Prim.emmregAttachAbort p.ue_id ∈ (emm_proc_attach_request cfg ctx ies).prims ∧
        ∃ q, (emm_proc_attach_request cfg ctx ies).ctx.attach_proc = some q ∧
          q.ies = ies ∧ q.attach_accept_sent = 0) ∧
      (emm_attach_ies_have_changed ies p.ies = false →
        Prim.t3450Stop p.ue_id ∈ (emm_proc_attach_request cfg ctx ies).prims ∧
        Prim.emmasEstablishCnf p.ue_id ∈ (emm_proc_attach_request cfg ctx ies).prims ∧
        ∃ q, (emm_proc_attach_request cfg ctx ies).ctx.attach_proc = some q ∧
          q.ies = p.ies ∧ q.attach_accept_sent = p.attach_accept_sent ∧
          q.t3450_armed = true) := by
  intro cfg ctx p ies hp hacc hcomp hsmc hid hfsm hg he
  have hcomp' : is_nas_attach_complete_received p = false := hcomp
  constructor
  · intro hch
    simp [emm_proc_attach_request, attach_request_ident, attach_request_collision,
      attach_request_tail, emmreg_attach_abort_dispatch, create_procedure_attach_request,
      emm_attach_run_procedure_proc, hp, hacc, hcomp', hsmc, hid, hfsm, hg, he, hch]
  · intro hch
    simp [emm_proc_attach_request, attach_request_ident, attach_request_collision,
      attach_request_tail, emm_send_attach_accept, emm_attach_update,
      emm_attach_run_procedure_proc, hp, hacc, hcomp', hcomp, hsmc, hid, hfsm, hg, he, hch]

/-- An IE snapshot differing from iesBase in the KSI, hence detected as
changed. -/
def iesDiffKsi : AttachIes := { iesBase with ksi := 1 }

/-- Witness for C1: at concrete contexts, a changed retransmission aborts
the old procedure and an identical retransmission resends the Accept. -/
theorem C1_case_d_collision_witness :
    Prim.emmregAttachAbort 7 ∈ (emm_proc_attach_request cfgBase ctxBase iesDiffKsi).prims ∧
    Prim.emmasEstablishCnf 7 ∈ (emm_proc_attach_request cfgBase ctxBase iesBase).prims :=
  ⟨((C1_case_d_collision cfgBase ctxBase procBase iesDiffKsi rfl (by decide) rfl rfl rfl rfl
      rfl rfl).1 (by decide)).1,
   (((C1_case_d_collision cfgBase ctxBase procBase iesBase rfl (by decide) rfl rfl rfl rfl
      rfl rfl).2 (by decide)).2).1⟩

/-- Claim C4, counterexample: a case-d retransmission with identical IEs
increments num_attach_request twice (Attach.c lines 370 and 463), not
once: from 1 it moves to 3 for a single received Attach Request. -/
theorem C4_counterexample :
    ctxBase.num_attach_request = 1 ∧
    (emm_proc_attach_request cfgBase ctxBase iesBase).ctx.num_attach_request = 3 := by
  decide

/-- Claim C4, amended: per received Attach Request, num_attach_request is
incremented twice under abnormal case d; not at all when the request is
dropped (abnormal case e with unchanged IEs, or an identification
collision with an in-progress Attach and unchanged IEs); and exactly once
otherwise (case e with changed IEs, or no running Attach procedure). -/
theorem C4_amended_num_attach_request :
    (∀ (cfg : MmeConfig) (ctx : EmmContext) (p : AttachProc) (ies : AttachIes),
      cfg.emergency_bearer_services_in_s1_supported = true →
      ctx.smc_running = false → ctx.ident_running = false →
      ctx.fsm_state = EmmFsmState.registered_initiated →
      ctx.guti_present = true →
      ctx.attach_proc = some p →
      is_nas_attach_accept_sent p = true → p.attach_complete_received = false →
      (emm_proc_attach_request cfg ctx ies).ctx.num_attach_request =
        ctx.num_attach_request + 2) ∧
    (∀ (cfg : MmeConfig) (ctx : EmmContext) (p : AttachProc) (ies : AttachIes),
      cfg.emergency_bearer_services_in_s1_supported = true →
      ctx.smc_running = false → ctx.ident_running = false →
      ctx.attach_proc = some p →
      p.attach_accept_sent = 0 → 1 ≤ ctx.num_attach_request →
      emm_attach_ies_have_changed ies p.ies = false →
      (emm_proc_attach_request cfg ctx ies).ctx.num_attach_request =
        ctx.num_attach_request) ∧
    (∀ (cfg : MmeConfig) (ctx : EmmContext) (p : AttachProc) (ies : AttachIes),
      cfg.emergency_bearer_services_in_s1_supported = true →
      ctx.smc_running = false → ctx.ident_running = false →
      ctx.attach_proc = some p →
      p.attach_accept_sent = 0 → 1 ≤ ctx.num_attach_request →
      emm_attach_ies_have_changed ies p.ies = true →
      (emm_proc_attach_request cfg ctx ies).ctx.num_attach_request =
        ctx.num_attach_request + 1) ∧
    (∀ (cfg : MmeConfig) (ctx : EmmContext) (ies : AttachIes),
      cfg.emergency_bearer_services_in_s1_supported = true →
      ctx.smc_running = false → ctx.ident_running = false →
      ctx.attach_proc = none →
      (emm_proc_attach_request cfg ctx ies).ctx.num_attach_request =
        ctx.num_attach_request + 1) ∧
    (∀ (cfg : MmeConfig) (ctx : EmmContext) (p : AttachProc) (ies : AttachIes),
      cfg.emergency_bearer_services_in_s1_supported = true →
      ctx.smc_running = false → ctx.ident_running = true →
      ctx.ident_is_cause_is_attach = true →
      ctx.attach_proc = some p →
      p.attach_accept_sent = 0 → p.attach_reject_sent = false →
      emm_attach_ies_have_changed ies p.ies = false →
      (emm_proc_attach_request cfg ctx ies).ctx.num_attach_request =
        ctx.num_attach_request) := by
  refine ⟨?_, ?_, ?_, ?_, ?_⟩
  · intro cfg ctx p ies he hsmc hid hfsm hg hp hacc hcomp
    have hcomp' : is_nas_attach_complete_received p = false := hcomp
    by_cases hch : emm_attach_ies_have_changed ies p.ies = true
    · simp [emm_proc_attach_request, attach_request_ident, attach_request_collision,
        attach_request_tail_num, emmreg_attach_abort_dispatch,
        create_procedure_attach_request, hp, hacc, hcomp', hsmc, hid, hfsm, he, hch]
    · replace hch : emm_attach_ies_have_changed ies p.ies = false := by
        simpa using hch
      simp [emm_proc_attach_request, attach_request_ident, attach_request_collision,
        attach_request_tail, emm_send_attach_accept, emm_attach_update,
        emm_attach_run_procedure_num, create_procedure_attach_request,
        hp, hacc, hcomp', hcomp, hsmc, hid, hfsm, hg, he, hch]
  · intro cfg ctx p ies he hsmc hid hp h0 h1 hch
    simp [emm_proc_attach_request, attach_request_ident, attach_request_collision,
      is_nas_attach_accept_sent, hp, h0, h1, hsmc, hid, he, hch]
  · intro cfg ctx p ies he hsmc hid hp h0 h1 hch
    simp [emm_proc_attach_request, attach_request_ident, attach_request_collision,
      attach_request_tail_num, emmreg_attach_abort_dispatch,
      create_procedure_attach_request, is_nas_attach_accept_sent,
      hp, h0, h1, hsmc, hid, he, hch]
  · intro cfg ctx ies he hsmc hid hp
    simp [emm_proc_attach_request, attach_request_ident, attach_request_collision,
      attach_request_tail_num, hp, hsmc, hid, he]
  · intro cfg ctx p ies he hsmc hid hica hp h0 hrej hch
    simp [emm_proc_attach_request, attach_request_ident, attach_request_collision,
      is_nas_attach_accept_sent, is_nas_attach_reject_sent,
      hp, h0, hrej, hica, hsmc, hid, he, hch]

/-- A context in abnormal case e: one request counted, Accept not yet
sent. -/
def ctxE : EmmContext :=
  { ctxBase with attach_proc := some { procBase with attach_accept_sent := 0 } }

/-- Witness for C4's amended statement: case d counts two, a dropped case-e
retransmission counts zero, a changed case-e retransmission counts one. -/
theorem C4_amended_num_attach_request_witness :
    (emm_proc_attach_request cfgBase ctxBase iesBase).ctx.num_attach_request = 3 ∧
    (emm_proc_attach_request cfgBase ctxE iesBase).ctx.num_attach_request = 1 ∧
    (emm_proc_attach_request cfgBase ctxE iesDiffKsi).ctx.num_attach_request = 2 :=
  ⟨C4_amended_num_attach_request.1 cfgBase ctxBase procBase iesBase rfl rfl rfl rfl rfl rfl
      (by decide) rfl,
   C4_amended_num_attach_request.2.1 cfgBase ctxE _ iesBase rfl rfl rfl rfl rfl
      (by decide) (by decide),
   (C4_amended_num_attach_request.2.2.1 cfgBase ctxE _ iesDiffKsi rfl rfl rfl rfl rfl
      (by decide) (by decide)).trans (by decide)⟩

end OaiAttach
